import Mathlib

/-!
# Verification of the Wave6 VPU encoder instance engine

Shallow embedding of `drivers/mxc/vpu/wave6/wave6-vpu-enc.c`: the crop/codec
rectangle translation, the ROI map geometry and map writer, the encode-cycle
coordinator (`wave6_vpu_enc_start_encode`), the completion handlers
(`wave6_handle_encoded_frame`, `wave6_handle_last_frame`,
`wave6_vpu_enc_finish_encode`), the sequence-init and sequence-change
paths, and the
instance lifecycle state machine driven by the streaming callbacks.

External collaborators (firmware transport, the vb2/m2m queue subsystem, DMA
allocation) are modelled by passing their outcomes as explicit arguments and
by representing the two m2m ready queues as lists of buffer records.  Machine
integers are modelled as `Nat`/`Int`; the quantities involved are far below
any wrap-around boundary on the paths embedded here, and kernel return codes
are kept as `Int` (0 = success, negative = errno).
-/

set_option maxHeartbeats 1000000

namespace Wave6

/-! ## Kernel arithmetic helpers

`round_down`/`round_up` are the kernel macros from `include/linux/math.h`,
used by the driver only with power-of-two steps; on that domain
`round_down(x, y) = x & ~(y-1)` equals `x - x % y` and
`round_up(x, y) = ((x-1) | (y-1)) + 1` equals `(x + y - 1) / y * y`.
`DIV_ROUND_UP` and `ALIGN` are the usual ceiling-division and align-up
macros. -/

def round_down (x y : Nat) : Nat := x - x % y

def round_up (x y : Nat) : Nat := (x + y - 1) / y * y

def DIV_ROUND_UP (n d : Nat) : Nat := (n + d - 1) / d

def ALIGN (x a : Nat) : Nat := round_up x a

/-! ## Data model -/

/-- `enum vpu_instance_state` (lifecycle states of one encoder instance). -/
inductive VpuInstState where
  | NONE
  | OPEN
  | INIT_SEQ
  | PIC_RUN
  | STOP
deriving DecidableEq, Repr

/-- `enum vb2_buffer_state`, restricted to the values this driver uses when
retiring buffers. -/
inductive VbBufState where
  | DONE
  | ERROR
deriving DecidableEq, Repr

/-- Picture type reported by firmware for an encoded frame. -/
inductive PicType where
  | I
  | P
  | B
deriving DecidableEq, Repr

/-- `enum codec_std` values used by the encoder (header not in the sources;
the file matches on `W_AVC_ENC` and `W_HEVC_ENC` and has default branches for
the rest, which we represent by `W_AV1_ENC`). -/
inductive CodecStd where
  | W_AVC_ENC
  | W_HEVC_ENC
  | W_AV1_ENC
deriving DecidableEq, Repr

/-- `struct v4l2_area`. -/
structure V4l2Area where
  width : Nat
  height : Nat
deriving DecidableEq, Repr

/-- `struct v4l2_rect` (only non-negative values occur here). -/
structure VRect where
  left : Nat
  top : Nat
  width : Nat
  height : Nat
deriving DecidableEq, Repr

/-- `struct vpu_roi_map_info`: the ROI geometry record filled in by
`wave6_vpu_enc_get_roi_info` and compared with `memcmp` in
`wave6_vpu_enc_set_roi_info` (all fields are written by the former, so
byte-wise comparison coincides with field-wise equality). -/
structure VpuRoiMapInfo where
  ctu : V4l2Area
  group : V4l2Area
  num_ctu_col : Nat
  num_ctu_row : Nat
  num_ctu : Nat
  num_group_col : Nat
  num_group_row : Nat
  custom_map_size : Nat
deriving DecidableEq, Repr

/-- One buffer on the m2m OUTPUT (source/raw-frame) ready queue, with the
driver-private `struct vpu_buffer` fields the encode cycle reads. -/
structure VpuSrcBuf where
  index : Nat
  consumed : Bool
  force_key_frame : Bool
  force_frame_qp : Bool
  has_custom_qp_map : Bool
deriving DecidableEq, Repr

/-- One buffer on the m2m CAPTURE (destination/bitstream) ready queue.
`addr` is the plane-0 DMA address, `payload`/`sequence`/`last` the vb2
metadata the driver stamps before retiring the buffer. -/
structure VpuDstBuf where
  addr : Nat
  size : Nat
  consumed : Bool
  used : Bool
  payload : Option Nat
  sequence : Option Nat
  last : Bool
  pic_flag : Option PicType
deriving DecidableEq, Repr

/-- The slice of `struct vpu_instance` mutated by the embedded operations,
together with the two m2m ready queues and the lists of buffers retired by
`v4l2_m2m_buf_done` (in retirement order, paired with their final state). -/
structure VpuInstance where
  state : VpuInstState
  std : CodecStd
  crop : VRect
  codec_rect : VRect
  roi_info : VpuRoiMapInfo
  custom_qp_map : List Nat
  sequence : Nat
  processed_buf_num : Nat
  error_buf_num : Nat
  eos : Bool
  error_recovery : Bool
  src_bufs : List VpuSrcBuf
  dst_bufs : List VpuDstBuf
  src_done : List (VpuSrcBuf × VbBufState)
  dst_done : List (VpuDstBuf × VbBufState)
  src_buffered : Bool
  src_q_error : Bool
  dst_q_error : Bool
deriving DecidableEq, Repr

/-! ## C1 — sequence-init and sequence-change waits

`wave6_vpu_enc_initialize_instance` (lines 2266–2312) and
`wave6_update_seq_param` (lines 788–815).  The results of the firmware calls
`wave6_vpu_enc_issue_seq_init` / `wave6_vpu_enc_issue_seq_change`,
`wave6_vpu_wait_interrupt` and `wave6_vpu_enc_complete_seq_init` are passed
as arguments. -/

/-- `wave6_vpu_enc_initialize_instance`, control flow on the embedded state:
returns the `int` result together with the instance state afterwards.  On the
timeout branch the source executes `return ret;` where `ret` still holds the
(zero) result of `wave6_vpu_enc_issue_seq_init`. -/
def wave6_vpu_enc_initialize_instance (st : VpuInstState)
    (issue_ret wait_ret complete_ret : Int) : Int × VpuInstState :=
  let ret := issue_ret
  if ret ≠ 0 then (ret, st)
  else if wait_ret < 0 then (ret, st)
  else
    let ret := complete_ret
    if ret ≠ 0 then (ret, st)
    else (0, VpuInstState.INIT_SEQ)

/-- `wave6_update_seq_param` (the sequence-change wait at the start of every
encode cycle).  The source discards the return value of
`wave6_vpu_enc_complete_seq_init` (it tests the stale `ret`), so that call
does not influence the result; on the timeout branch it executes
`return ret;` with `ret` still zero. -/
def wave6_update_seq_param (issue_ret : Int) (changed : Bool)
    (wait_ret : Int) : Int :=
  let ret := issue_ret
  if ret ≠ 0 then ret
  else if !changed then 0
  else if wait_ret < 0 then ret
  else 0

/-! ## C2 — crop rectangle to codec rectangle -/

/-- `wave6_update_crop_info` (lines 697–715).  The step constants
`W6_ENC_CROP_X_POS_STEP`, `W6_ENC_CROP_Y_POS_STEP` and
`W6_ENC_PIC_SIZE_STEP` are defined in a header that is not among the
sources; they are kept as the parameters `xPosStep`, `yPosStep`,
`sizeStep`. -/
def wave6_update_crop_info (xPosStep yPosStep sizeStep : Nat)
    (inst : VpuInstance) (left top width height : Nat) : VpuInstance :=
  let cleft := round_down left xPosStep
  let ctop := round_down top yPosStep
  let enc_pic_width := width + left - cleft
  let cwidth := round_up enc_pic_width sizeStep
  let enc_pic_height := height + top - ctop
  let cheight := round_up enc_pic_height sizeStep
  { inst with
      crop := ⟨left, top, width, height⟩
      codec_rect := ⟨cleft, ctop, cwidth, cheight⟩ }

/-! Arithmetic facts about the rounding helpers. -/

theorem round_down_le (x y : Nat) : round_down x y ≤ x :=
  Nat.sub_le _ _

theorem le_round_up (x y : Nat) (hy : 0 < y) : x ≤ round_up x y := by
  unfold round_up
  have hdm : (x + y - 1) / y * y + (x + y - 1) % y = x + y - 1 :=
    Nat.div_add_mod' _ _
  have hmod : (x + y - 1) % y < y := Nat.mod_lt _ hy
  omega

/-! ## ROI geometry (C3, C4, C10) -/

/-- Modelled from the spec: `W6_ENC_CTU_WIDTH_ALIGNMENT` is defined in a
header that is not among the sources.  The spec's Scenario A requires the
group-column count of a 1920-wide picture in the 32×32-CTU / 2×2-group
family, `DIV_ROUND_UP(ALIGN(1920, W6_ENC_CTU_WIDTH_ALIGNMENT), 64)`, to
equal `ceil(1920/64) = 30`, which forces
`ALIGN(1920, W6_ENC_CTU_WIDTH_ALIGNMENT) = 1920`; the CTU-width alignment
consistent with that and with the 32/64-pixel grid is 64. -/
def W6_ENC_CTU_WIDTH_ALIGNMENT : Nat := 64

/-- `wave6_vpu_enc_get_roi_info` (lines 1154–1184): ROI grid geometry as a
pure function of the codec standard and the codec-rectangle dimensions. -/
def wave6_vpu_enc_get_roi_info (std : CodecStd) (width height : Nat) :
    VpuRoiMapInfo :=
  let ctu : V4l2Area := if std = CodecStd.W_AVC_ENC then ⟨16, 16⟩ else ⟨32, 32⟩
  let group : V4l2Area := if std = CodecStd.W_AVC_ENC then ⟨1, 1⟩ else ⟨2, 2⟩
  let num_ctu_col := DIV_ROUND_UP width ctu.width
  let num_ctu_row := DIV_ROUND_UP height ctu.height
  let num_ctu := num_ctu_col * num_ctu_row
  let grp_width := ctu.width * group.width
  let grp_height := ctu.height * group.height
  let num_group_col :=
    DIV_ROUND_UP (ALIGN width W6_ENC_CTU_WIDTH_ALIGNMENT) grp_width
  let num_group_row := DIV_ROUND_UP height grp_height
  { ctu := ctu
    group := group
    num_ctu_col := num_ctu_col
    num_ctu_row := num_ctu_row
    num_ctu := num_ctu
    num_group_col := num_group_col
    num_group_row := num_group_row
    custom_map_size := num_group_col * num_group_row * (group.width * group.height) }

/-- `wave6_vpu_enc_set_roi_info` (lines 1194–1211): recompute the geometry
for the current codec rectangle; when the recomputed record differs from the
stored one (`memcmp` in the source, which coincides with field-wise equality
since every field is written), replace it and `memset` the ROI map buffer to
zero.  The trailing `v4l2_ctrl_s_ctrl_area` call only updates a read-only
control and does not touch the instance. -/
def wave6_vpu_enc_set_roi_info (inst : VpuInstance) : VpuInstance :=
  if wave6_vpu_enc_get_roi_info inst.std inst.codec_rect.width
      inst.codec_rect.height ≠ inst.roi_info then
    { inst with
        roi_info := wave6_vpu_enc_get_roi_info inst.std inst.codec_rect.width
          inst.codec_rect.height
        custom_qp_map := List.replicate inst.custom_qp_map.length 0 }
  else inst

/-- An all-zero ROI geometry record (the zero-initialised
`struct vpu_roi_map_info`). -/
def roiZero : VpuRoiMapInfo :=
  { ctu := ⟨0, 0⟩, group := ⟨0, 0⟩, num_ctu_col := 0, num_ctu_row := 0
    num_ctu := 0, num_group_col := 0, num_group_row := 0, custom_map_size := 0 }

/-- A concrete instance used to instantiate universally quantified theorems. -/
def inst₀ : VpuInstance :=
  { state := VpuInstState.PIC_RUN
    std := CodecStd.W_HEVC_ENC
    crop := ⟨0, 0, 64, 64⟩
    codec_rect := ⟨0, 0, 64, 64⟩
    roi_info := roiZero
    custom_qp_map := [9, 9, 9, 9]
    sequence := 0
    processed_buf_num := 0
    error_buf_num := 0
    eos := false
    error_recovery := false
    src_bufs := []
    dst_bufs := []
    src_done := []
    dst_done := []
    src_buffered := false
    src_q_error := false
    dst_q_error := false }

/-! ## Claim theorems C1–C4 -/

/-- C1: when the sequence-init command has been issued successfully and no
hardware completion arrives within the bounded timeout
(`wave6_vpu_wait_interrupt` returns a negative value), the claim says the
operation must return a failure (`Timeout`).  The code instead executes
`return ret;` with `ret` still holding the zero result of the issue call, so
both `wave6_vpu_enc_initialize_instance` and the sequence-change wait
`wave6_update_seq_param` report success (0) after a timed-out wait, leaving
the instance state unchanged. -/
theorem seq_wait_timeout_reports_success :
    (wave6_vpu_enc_initialize_instance VpuInstState.OPEN 0 (-1) 0).1 = 0 ∧
    (wave6_vpu_enc_initialize_instance VpuInstState.OPEN 0 (-1) 0).2 =
      VpuInstState.OPEN ∧
    wave6_update_seq_param 0 true (-1) = 0 := by
  decide

/-- C2: for every crop rectangle update, `wave6_update_crop_info` produces
`codec.left = round_down(left, POS_STEP)`, `codec.top = round_down(top,
POS_STEP)`, `codec.width = round_up(width + (left - codec.left), SIZE_STEP)`
and analogously for the height; consequently `codec.left ≤ left`,
`codec.top ≤ top`, and the codec rectangle covers the crop rectangle.  The
step constants are abstract (their header is absent); only positivity of the
size step is needed. -/
theorem update_crop_info_codec_rect (xs ys ss : Nat) (hss : 0 < ss)
    (inst : VpuInstance) (l t w h : Nat) :
    ((wave6_update_crop_info xs ys ss inst l t w h).codec_rect.left =
        round_down l xs) ∧
    ((wave6_update_crop_info xs ys ss inst l t w h).codec_rect.top =
        round_down t ys) ∧
    ((wave6_update_crop_info xs ys ss inst l t w h).codec_rect.width =
        round_up (w + (l -
          (wave6_update_crop_info xs ys ss inst l t w h).codec_rect.left)) ss) ∧
    ((wave6_update_crop_info xs ys ss inst l t w h).codec_rect.height =
        round_up (h + (t -
          (wave6_update_crop_info xs ys ss inst l t w h).codec_rect.top)) ss) ∧
    ((wave6_update_crop_info xs ys ss inst l t w h).codec_rect.left ≤ l) ∧
    ((wave6_update_crop_info xs ys ss inst l t w h).codec_rect.top ≤ t) ∧
    (l + w ≤ (wave6_update_crop_info xs ys ss inst l t w h).codec_rect.left +
        (wave6_update_crop_info xs ys ss inst l t w h).codec_rect.width) ∧
    (t + h ≤ (wave6_update_crop_info xs ys ss inst l t w h).codec_rect.top +
        (wave6_update_crop_info xs ys ss inst l t w h).codec_rect.height) := by
  unfold wave6_update_crop_info
  dsimp only
  have hl : round_down l xs ≤ l := round_down_le _ _
  have ht : round_down t ys ≤ t := round_down_le _ _
  have hw := le_round_up (w + l - round_down l xs) ss hss
  have hh := le_round_up (h + t - round_down t ys) ss hss
  refine ⟨rfl, rfl, ?_, ?_, hl, ht, ?_, ?_⟩
  · congr 1
    omega
  · congr 1
    omega
  · omega
  · omega

/-- Closed instantiation of `update_crop_info_codec_rect` (coverage of the
crop rectangle at a concrete unaligned crop). -/
theorem update_crop_info_codec_rect_witness :
    0 < 2 ∧
    33 + 100 ≤ (wave6_update_crop_info 32 4 2 inst₀ 33 7 100 51).codec_rect.left +
        (wave6_update_crop_info 32 4 2 inst₀ 33 7 100 51).codec_rect.width :=
  ⟨by decide,
   (update_crop_info_codec_rect 32 4 2 (by decide) inst₀ 33 7 100 51).2.2.2.2.2.2.1⟩

/-- C3: the ROI geometry is a pure function of `(standard, width, height)`
(recomputation yields identical results); `wave6_vpu_enc_set_roi_info`
leaves the instance — in particular the ROI map contents — untouched when
the recomputed geometry equals the stored one, and otherwise replaces the
stored geometry and zeroes the ROI map buffer. -/
theorem roi_geometry_pure_and_invalidation (inst : VpuInstance) :
    (∀ std w h, wave6_vpu_enc_get_roi_info std w h =
        wave6_vpu_enc_get_roi_info std w h) ∧
    (wave6_vpu_enc_get_roi_info inst.std inst.codec_rect.width
        inst.codec_rect.height = inst.roi_info →
      wave6_vpu_enc_set_roi_info inst = inst) ∧
    (wave6_vpu_enc_get_roi_info inst.std inst.codec_rect.width
        inst.codec_rect.height ≠ inst.roi_info →
      (wave6_vpu_enc_set_roi_info inst).roi_info =
        wave6_vpu_enc_get_roi_info inst.std inst.codec_rect.width
          inst.codec_rect.height ∧
      (wave6_vpu_enc_set_roi_info inst).custom_qp_map =
        List.replicate inst.custom_qp_map.length 0) := by
  refine ⟨fun _ _ _ => rfl, ?_, ?_⟩
  · intro hEq
    unfold wave6_vpu_enc_set_roi_info
    rw [if_neg (not_not_intro hEq)]
  · intro hNe
    unfold wave6_vpu_enc_set_roi_info
    rw [if_pos hNe]
    exact ⟨rfl, rfl⟩

/-- Closed instantiation of `roi_geometry_pure_and_invalidation`: on a
concrete instance whose stored geometry is stale, the update zeroes the
four-byte map. -/
theorem roi_geometry_pure_and_invalidation_witness :
    (wave6_vpu_enc_set_roi_info inst₀).custom_qp_map = [0, 0, 0, 0] := by
  have h := (roi_geometry_pure_and_invalidation inst₀).2.2 (by decide)
  simpa using h.2

/-- C4: for the 32×32-CTU / 2×2-group family (here HEVC), the ROI map size
of a 1920×1080 codec rectangle equals `ceil(1920/64) * ceil(1080/64) * 4 =
2040`, the column count being obtained through the CTU-width-alignment
constant. -/
theorem roi_map_size_1080p :
    (wave6_vpu_enc_get_roi_info CodecStd.W_HEVC_ENC 1920 1080).num_group_col =
        DIV_ROUND_UP (ALIGN 1920 W6_ENC_CTU_WIDTH_ALIGNMENT) 64 ∧
    (wave6_vpu_enc_get_roi_info CodecStd.W_HEVC_ENC 1920 1080).custom_map_size =
        DIV_ROUND_UP 1920 64 * DIV_ROUND_UP 1080 64 * 4 ∧
    (wave6_vpu_enc_get_roi_info CodecStd.W_HEVC_ENC 1920 1080).custom_map_size =
        2040 := by
  decide

/-! ## The encode cycle (C5, C6)

`wave6_vpu_enc_start_encode` (lines 817–944).  The buffer-selection helpers
`wave6_get_valid_src_buf` / `wave6_get_valid_dst_buf` (lines 464–502) walk
the m2m ready queue in order and return the first buffer not yet marked
`consumed`.  Plane-address computation, DMA syncing and the CSC setup only
fill the request and touch no instance state; the embedding keeps the
request fields the claims are about (`src_end`, `src_idx`). -/

/-- `wave6_get_valid_src_buf`: oldest source buffer not marked consumed. -/
def wave6_get_valid_src_buf (l : List VpuSrcBuf) : Option VpuSrcBuf :=
  l.find? (fun b => !b.consumed)

/-- `wave6_get_valid_dst_buf`: oldest destination buffer not marked consumed. -/
def wave6_get_valid_dst_buf (l : List VpuDstBuf) : Option VpuDstBuf :=
  l.find? (fun b => !b.consumed)

/-- Effect of `src_vbuf->consumed = true` on the queue: the selected buffer
is the first unconsumed one, so exactly that entry is updated. -/
def markFirstUnconsumedSrc : List VpuSrcBuf → List VpuSrcBuf
  | [] => []
  | b :: bs =>
    if b.consumed then b :: markFirstUnconsumedSrc bs
    else { b with consumed := true } :: bs

/-- Effect of `dst_vbuf->consumed = true; dst_vbuf->used = true;` on the
queue. -/
def markFirstUnconsumedDst : List VpuDstBuf → List VpuDstBuf
  | [] => []
  | b :: bs =>
    if b.consumed then b :: markFirstUnconsumedDst bs
    else { b with consumed := true, used := true } :: bs

/-- The slice of `struct enc_param` the claims are about: the source-end
flag and the attached source buffer index (`none` = no source frame). -/
structure EncParam where
  src_end : Bool
  src_idx : Option Nat
deriving DecidableEq, Repr

/-- Result of one encode cycle: the instance afterwards, the request passed
to `wave6_vpu_enc_start_one_frame` (`none` when the cycle aborted before
submission), and the `int` return value. -/
structure StartEncodeResult where
  inst : VpuInstance
  submitted : Option EncParam
  ret : Int
deriving DecidableEq, Repr

/-- Lines 847–916 of `wave6_vpu_enc_start_encode`: select the buffers, build
the request, and mark the selected buffers consumed (lines 911–916), all
before submission.  Returns `none` when the cycle aborts: no valid
destination buffer, or no valid source buffer while the instance is not in
`STOP`.  In the source-end branch (no source, state `STOP`) no source frame
is attached and `src_end` is set. -/
def wave6_enc_pick_and_mark (inst : VpuInstance) :
    Option (VpuInstance × EncParam) :=
  match wave6_get_valid_dst_buf inst.dst_bufs with
  | none => none
  | some _ =>
    match wave6_get_valid_src_buf inst.src_bufs with
    | none =>
      if inst.state = VpuInstState.STOP then
        some ({ inst with dst_bufs := markFirstUnconsumedDst inst.dst_bufs },
              { src_end := true, src_idx := none })
      else none
    | some src =>
      some ({ inst with
                src_bufs := markFirstUnconsumedSrc inst.src_bufs
                dst_bufs := markFirstUnconsumedDst inst.dst_bufs
                error_recovery :=
                  if src.force_key_frame || inst.error_recovery then false
                  else inst.error_recovery },
            { src_end := false, src_idx := some src.index })

/-- The submission-failure path of `wave6_vpu_enc_start_encode` (lines
920–937): force the instance to `STOP`, remove the head of the destination
queue (`v4l2_m2m_dst_buf_remove`), stamp it with the current sequence number
and complete it as `ERROR`; then remove the head of the source queue, if
any, complete it as `ERROR` and advance `sequence`, `processed_buf_num` and
`error_buf_num`. -/
def startEncodeFailCleanup (inst1 : VpuInstance) : VpuInstance :=
  let inst2 := { inst1 with state := VpuInstState.STOP }
  let inst3 :=
    match inst2.dst_bufs with
    | [] => inst2
    | d :: rest =>
      { inst2 with
          dst_bufs := rest
          dst_done := inst2.dst_done ++
            [({ d with sequence := some inst2.sequence },
              VbBufState.ERROR)] }
  match inst3.src_bufs with
  | [] => inst3
  | s :: rest =>
    { inst3 with
        src_bufs := rest
        src_done := inst3.src_done ++ [(s, VbBufState.ERROR)]
        sequence := inst3.sequence + 1
        processed_buf_num := inst3.processed_buf_num + 1
        error_buf_num := inst3.error_buf_num + 1 }

/-- `wave6_vpu_enc_start_encode`: runs the sequence-change step, builds and
submits one picture request; on submission failure it runs the cleanup
path. -/
def wave6_vpu_enc_start_encode (inst : VpuInstance)
    (seq_issue_ret : Int) (seq_changed : Bool) (seq_wait_ret : Int)
    (start_ret : Int) : StartEncodeResult :=
  let seq_ret := wave6_update_seq_param seq_issue_ret seq_changed seq_wait_ret
  if seq_ret ≠ 0 then ⟨inst, none, seq_ret⟩
  else
    match wave6_enc_pick_and_mark inst with
    | none => ⟨inst, none, 0⟩
    | some (inst1, p) =>
      if start_ret ≠ 0 then ⟨startEncodeFailCleanup inst1, some p, start_ret⟩
      else ⟨inst1, some p, 0⟩

/-! Selection and marking lemmas. -/

theorem get_valid_src_mark (l : List VpuSrcBuf) (b : VpuSrcBuf)
    (h : wave6_get_valid_src_buf l = some b) :
    ∃ j, l.get? j = some b ∧
      (markFirstUnconsumedSrc l).get? j = some { b with consumed := true } := by
  induction l with
  | nil => simp [wave6_get_valid_src_buf] at h
  | cons a as ih =>
    by_cases hc : a.consumed
    · have h' : wave6_get_valid_src_buf as = some b := by
        simpa [wave6_get_valid_src_buf, List.find?_cons_of_neg, hc] using h
      obtain ⟨j, h1, h2⟩ := ih h'
      exact ⟨j + 1, by simpa using h1,
        by simp [markFirstUnconsumedSrc, hc]; simpa using h2⟩
    · have hb : a = b := by
        have := h
        simp [wave6_get_valid_src_buf, List.find?_cons_of_pos, hc] at this
        exact this
      subst hb
      exact ⟨0, rfl, by simp [markFirstUnconsumedSrc, hc]⟩

theorem get_valid_dst_mark (l : List VpuDstBuf) (b : VpuDstBuf)
    (h : wave6_get_valid_dst_buf l = some b) :
    ∃ j, l.get? j = some b ∧
      (markFirstUnconsumedDst l).get? j =
        some { b with consumed := true, used := true } := by
  induction l with
  | nil => simp [wave6_get_valid_dst_buf] at h
  | cons a as ih =>
    by_cases hc : a.consumed
    · have h' : wave6_get_valid_dst_buf as = some b := by
        simpa [wave6_get_valid_dst_buf, List.find?_cons_of_neg, hc] using h
      obtain ⟨j, h1, h2⟩ := ih h'
      exact ⟨j + 1, by simpa using h1,
        by simp [markFirstUnconsumedDst, hc]; simpa using h2⟩
    · have hb : a = b := by
        have := h
        simp [wave6_get_valid_dst_buf, List.find?_cons_of_pos, hc] at this
        exact this
      subst hb
      exact ⟨0, rfl, by simp [markFirstUnconsumedDst, hc]⟩

theorem pick_none_of_dst_none (inst : VpuInstance)
    (hD : wave6_get_valid_dst_buf inst.dst_bufs = none) :
    wave6_enc_pick_and_mark inst = none := by
  unfold wave6_enc_pick_and_mark
  rw [hD]

theorem pick_none_of_no_src_not_stop (inst : VpuInstance)
    (hS : wave6_get_valid_src_buf inst.src_bufs = none)
    (hstop : inst.state ≠ VpuInstState.STOP) :
    wave6_enc_pick_and_mark inst = none := by
  unfold wave6_enc_pick_and_mark
  cases hD : wave6_get_valid_dst_buf inst.dst_bufs with
  | none => rfl
  | some d => rw [hS]; simp [hstop]

theorem pick_eos (inst : VpuInstance) (d : VpuDstBuf)
    (hD : wave6_get_valid_dst_buf inst.dst_bufs = some d)
    (hS : wave6_get_valid_src_buf inst.src_bufs = none)
    (hstop : inst.state = VpuInstState.STOP) :
    wave6_enc_pick_and_mark inst =
      some ({ inst with dst_bufs := markFirstUnconsumedDst inst.dst_bufs },
            { src_end := true, src_idx := none }) := by
  unfold wave6_enc_pick_and_mark
  rw [hD, hS]
  simp [hstop]

theorem pick_marks (inst inst1 : VpuInstance) (p : EncParam)
    (hp : wave6_enc_pick_and_mark inst = some (inst1, p)) :
    inst1.dst_bufs = markFirstUnconsumedDst inst.dst_bufs ∧
    (∀ s, wave6_get_valid_src_buf inst.src_bufs = some s →
      inst1.src_bufs = markFirstUnconsumedSrc inst.src_bufs) := by
  unfold wave6_enc_pick_and_mark at hp
  cases hD : wave6_get_valid_dst_buf inst.dst_bufs with
  | none => rw [hD] at hp; exact absurd hp (by simp)
  | some d =>
    rw [hD] at hp
    cases hS : wave6_get_valid_src_buf inst.src_bufs with
    | none =>
      rw [hS] at hp
      by_cases hstop : inst.state = VpuInstState.STOP
      · rw [if_pos hstop] at hp
        obtain ⟨h1, _⟩ := Prod.mk.injEq .. ▸ Option.some.inj hp
        exact ⟨by rw [← h1], fun s hs => by simp [hS] at hs⟩
      · rw [if_neg hstop] at hp
        cases hp
    | some s0 =>
      rw [hS] at hp
      obtain ⟨h1, _⟩ := Prod.mk.injEq .. ▸ Option.some.inj hp
      refine ⟨by rw [← h1], fun s hs => by rw [← h1]⟩

theorem start_encode_submitted_eq (inst : VpuInstance) (si : Int) (sc : Bool)
    (sw sr : Int) (hs : wave6_update_seq_param si sc sw = 0) :
    (wave6_vpu_enc_start_encode inst si sc sw sr).submitted =
      Option.map Prod.snd (wave6_enc_pick_and_mark inst) := by
  cases hp : wave6_enc_pick_and_mark inst with
  | none => simp [wave6_vpu_enc_start_encode, hs, hp]
  | some x =>
    obtain ⟨i1, p⟩ := x
    by_cases hr : sr = 0
    · simp [wave6_vpu_enc_start_encode, hs, hp, hr]
    · simp [wave6_vpu_enc_start_encode, hs, hp, hr]

theorem start_encode_abort (inst : VpuInstance) (si : Int) (sc : Bool)
    (sw sr : Int) (hp : wave6_enc_pick_and_mark inst = none) :
    (wave6_vpu_enc_start_encode inst si sc sw sr).inst = inst ∧
    (wave6_vpu_enc_start_encode inst si sc sw sr).submitted = none := by
  by_cases hs : wave6_update_seq_param si sc sw = 0
  · simp [wave6_vpu_enc_start_encode, hs, hp]
  · simp [wave6_vpu_enc_start_encode, hs]

/-- C5: in every encode cycle — if no unconsumed destination buffer exists
the cycle returns without submitting and without touching the instance; if a
destination buffer exists but no unconsumed source buffer exists, the cycle
submits a source-end request without a source frame exactly when the
instance is in `STOP` and otherwise aborts untouched; and whenever a request
is submitted, the selected source buffer (if any) and destination buffer
have been marked consumed in the instance state passed to submission. -/
theorem start_encode_selection (inst : VpuInstance) (si : Int) (sc : Bool)
    (sw sr : Int) :
    (wave6_get_valid_dst_buf inst.dst_bufs = none →
      (wave6_vpu_enc_start_encode inst si sc sw sr).submitted = none ∧
      (wave6_vpu_enc_start_encode inst si sc sw sr).inst = inst) ∧
    (wave6_update_seq_param si sc sw = 0 →
      wave6_get_valid_src_buf inst.src_bufs = none →
      ((inst.state = VpuInstState.STOP →
          wave6_get_valid_dst_buf inst.dst_bufs ≠ none →
          (wave6_vpu_enc_start_encode inst si sc sw sr).submitted =
            some { src_end := true, src_idx := none }) ∧
       (inst.state ≠ VpuInstState.STOP →
          (wave6_vpu_enc_start_encode inst si sc sw sr).submitted = none ∧
          (wave6_vpu_enc_start_encode inst si sc sw sr).inst = inst))) ∧
    (∀ inst1 p, wave6_enc_pick_and_mark inst = some (inst1, p) →
      (∀ d, wave6_get_valid_dst_buf inst.dst_bufs = some d →
        ∃ j, inst.dst_bufs.get? j = some d ∧
          inst1.dst_bufs.get? j =
            some { d with consumed := true, used := true }) ∧
      (∀ s, wave6_get_valid_src_buf inst.src_bufs = some s →
        ∃ j, inst.src_bufs.get? j = some s ∧
          inst1.src_bufs.get? j = some { s with consumed := true })) ∧
    (wave6_update_seq_param si sc sw = 0 →
      (wave6_vpu_enc_start_encode inst si sc sw sr).submitted =
        Option.map Prod.snd (wave6_enc_pick_and_mark inst)) := by
  refine ⟨?_, ?_, ?_, ?_⟩
  · intro hD
    have h := start_encode_abort inst si sc sw sr (pick_none_of_dst_none inst hD)
    exact ⟨h.2, h.1⟩
  · intro hs hS
    constructor
    · intro hstop hD
      obtain ⟨d, hd⟩ := Option.ne_none_iff_exists'.mp hD
      rw [start_encode_submitted_eq inst si sc sw sr hs,
        pick_eos inst d hd hS hstop]
      rfl
    · intro hstop
      have h := start_encode_abort inst si sc sw sr
        (pick_none_of_no_src_not_stop inst hS hstop)
      exact ⟨h.2, h.1⟩
  · intro inst1 p hp
    obtain ⟨hdst, hsrc⟩ := pick_marks inst inst1 p hp
    constructor
    · intro d hd
      obtain ⟨j, h1, h2⟩ := get_valid_dst_mark inst.dst_bufs d hd
      exact ⟨j, h1, by rw [hdst]; exact h2⟩
    · intro s hsv
      obtain ⟨j, h1, h2⟩ := get_valid_src_mark inst.src_bufs s hsv
      exact ⟨j, h1, by rw [hsrc s hsv]; exact h2⟩
  · intro hs
    exact start_encode_submitted_eq inst si sc sw sr hs

/-- A fresh (unconsumed) destination buffer at DMA address 4096. -/
def dstBuf₀ : VpuDstBuf :=
  { addr := 4096, size := 4096, consumed := false, used := false
    payload := none, sequence := none, last := false, pic_flag := none }

/-- A fresh (unconsumed) source buffer with index 0. -/
def srcBuf₀ : VpuSrcBuf :=
  { index := 0, consumed := false, force_key_frame := false
    force_frame_qp := false, has_custom_qp_map := false }

/-- A stopped instance with one destination buffer queued and no source
buffer: the drain situation of the encode cycle. -/
def instEOS : VpuInstance :=
  { inst₀ with state := VpuInstState.STOP, dst_bufs := [dstBuf₀] }

/-- Closed instantiation of `start_encode_selection`: the stopped instance
with no source input submits exactly the source-end request. -/
theorem start_encode_selection_witness :
    (wave6_vpu_enc_start_encode instEOS 0 false 0 0).submitted =
      some { src_end := true, src_idx := none } :=
  ((start_encode_selection instEOS 0 false 0 0).2.1 (by decide)
    (by decide)).1 (by decide) (by decide)

/-- C6: when `wave6_vpu_enc_start_one_frame` fails, with an input and an
output buffer attached the instance goes to `STOP`, both buffers are
completed with `ERROR`, and `sequence`, `processed_buf_num` and
`error_buf_num` advance by exactly one (counted on the input side); when the
failed request carried no input buffer (the source-end request of a drain),
`error_buf_num`, `processed_buf_num` and `sequence` are unchanged.  The
clean-cycle hypotheses say no queued buffer is still marked consumed, which
is the steady state between completed jobs. -/
theorem start_encode_failure_counters (inst : VpuInstance) (si : Int)
    (sc : Bool) (sw sr : Int)
    (hs : wave6_update_seq_param si sc sw = 0)
    (hsr : sr ≠ 0)
    (hclean : ∀ b ∈ inst.src_bufs, b.consumed = false)
    (hcleand : ∀ b ∈ inst.dst_bufs, b.consumed = false) :
    (∀ s ss d ds, inst.src_bufs = s :: ss → inst.dst_bufs = d :: ds →
      (wave6_vpu_enc_start_encode inst si sc sw sr).inst.state =
        VpuInstState.STOP ∧
      (wave6_vpu_enc_start_encode inst si sc sw sr).inst.src_done =
        inst.src_done ++ [({ s with consumed := true }, VbBufState.ERROR)] ∧
      (wave6_vpu_enc_start_encode inst si sc sw sr).inst.dst_done =
        inst.dst_done ++
          [({ d with consumed := true, used := true,
                     sequence := some inst.sequence }, VbBufState.ERROR)] ∧
      (wave6_vpu_enc_start_encode inst si sc sw sr).inst.sequence =
        inst.sequence + 1 ∧
      (wave6_vpu_enc_start_encode inst si sc sw sr).inst.processed_buf_num =
        inst.processed_buf_num + 1 ∧
      (wave6_vpu_enc_start_encode inst si sc sw sr).inst.error_buf_num =
        inst.error_buf_num + 1) ∧
    (inst.src_bufs = [] → inst.state = VpuInstState.STOP →
      ∀ d ds, inst.dst_bufs = d :: ds →
      (wave6_vpu_enc_start_encode inst si sc sw sr).submitted =
        some { src_end := true, src_idx := none } ∧
      (wave6_vpu_enc_start_encode inst si sc sw sr).inst.state =
        VpuInstState.STOP ∧
      (wave6_vpu_enc_start_encode inst si sc sw sr).inst.error_buf_num =
        inst.error_buf_num ∧
      (wave6_vpu_enc_start_encode inst si sc sw sr).inst.processed_buf_num =
        inst.processed_buf_num ∧
      (wave6_vpu_enc_start_encode inst si sc sw sr).inst.sequence =
        inst.sequence ∧
      (wave6_vpu_enc_start_encode inst si sc sw sr).inst.dst_done =
        inst.dst_done ++
          [({ d with consumed := true, used := true,
                     sequence := some inst.sequence }, VbBufState.ERROR)]) := by
  constructor
  · intro s ss d ds hS hD
    have hsc : s.consumed = false := hclean s (by rw [hS]; exact List.mem_cons_self _ _)
    have hdc : d.consumed = false := hcleand d (by rw [hD]; exact List.mem_cons_self _ _)
    have hvs : wave6_get_valid_src_buf inst.src_bufs = some s := by
      rw [hS]
      simp [wave6_get_valid_src_buf, List.find?_cons, hsc]
    have hvd : wave6_get_valid_dst_buf inst.dst_bufs = some d := by
      rw [hD]
      simp [wave6_get_valid_dst_buf, List.find?_cons, hdc]
    have hmarkS : markFirstUnconsumedSrc inst.src_bufs =
        { s with consumed := true } :: ss := by
      rw [hS]
      simp [markFirstUnconsumedSrc, hsc]
    have hmarkD : markFirstUnconsumedDst inst.dst_bufs =
        { d with consumed := true, used := true } :: ds := by
      rw [hD]
      simp [markFirstUnconsumedDst, hdc]
    have hpick : wave6_enc_pick_and_mark inst =
        some ({ inst with
                  src_bufs := markFirstUnconsumedSrc inst.src_bufs
                  dst_bufs := markFirstUnconsumedDst inst.dst_bufs
                  error_recovery :=
                    if s.force_key_frame || inst.error_recovery then false
                    else inst.error_recovery },
              { src_end := false, src_idx := some s.index }) := by
      unfold wave6_enc_pick_and_mark
      rw [hvd, hvs]
    refine ⟨?_, ?_, ?_, ?_, ?_, ?_⟩ <;>
      simp [wave6_vpu_enc_start_encode, startEncodeFailCleanup, hs, hpick, hsr, hmarkS, hmarkD]
  · intro hS hstop d ds hD
    have hdc : d.consumed = false := hcleand d (by rw [hD]; exact List.mem_cons_self _ _)
    have hvs : wave6_get_valid_src_buf inst.src_bufs = none := by
      rw [hS]; rfl
    have hvd : wave6_get_valid_dst_buf inst.dst_bufs = some d := by
      rw [hD]
      simp [wave6_get_valid_dst_buf, List.find?_cons, hdc]
    have hmarkD : markFirstUnconsumedDst inst.dst_bufs =
        { d with consumed := true, used := true } :: ds := by
      rw [hD]
      simp [markFirstUnconsumedDst, hdc]
    have hpick := pick_eos inst d hvd hvs hstop
    refine ⟨?_, ?_, ?_, ?_, ?_, ?_⟩ <;>
      simp [wave6_vpu_enc_start_encode, startEncodeFailCleanup, hs, hpick, hsr, hmarkD, hS]

/-- An instance with one fresh source and one fresh destination buffer. -/
def instBoth : VpuInstance :=
  { inst₀ with src_bufs := [srcBuf₀], dst_bufs := [dstBuf₀] }

/-- Closed instantiation of `start_encode_failure_counters`: a failed
submission with both buffers attached stops the instance and bumps the error
counter once. -/
theorem start_encode_failure_counters_witness :
    (wave6_vpu_enc_start_encode instBoth 0 false 0 (-5)).inst.state =
      VpuInstState.STOP ∧
    (wave6_vpu_enc_start_encode instBoth 0 false 0 (-5)).inst.error_buf_num =
      0 + 1 := by
  have h := (start_encode_failure_counters instBoth 0 false 0 (-5)
    (by decide) (by decide)
    (fun b hb => by simp [instBoth, srcBuf₀] at hb; subst hb; rfl)
    (fun b hb => by simp [instBoth, dstBuf₀] at hb; subst hb; rfl)).1
    srcBuf₀ [] dstBuf₀ [] rfl rfl
  exact ⟨h.1, h.2.2.2.2.2⟩

/-! ## Completion handling (C7, C8)

`wave6_handle_encoded_frame` (lines 946–1009), `wave6_handle_last_frame`
(lines 1011–1032) and `wave6_vpu_enc_finish_encode` (lines 1034–1065).
Timing/QP telemetry copies (`ts_*`, `hw_time`, `average_qp`,
`wave6_vpu_handle_performance`) and cache syncs touch no state the claims
mention and are omitted. -/

/-- The slice of `struct enc_output_info` the completion handler reads. -/
structure EncOutputInfo where
  encoding_success : Bool
  enc_src_idx : Int
  recon_frame_index : Int
  bitstream_buffer : Nat
  bitstream_size : Nat
  pic_type : PicType
deriving DecidableEq, Repr

/-- Modelled from the spec: `RECON_IDX_FLAG_ENC_END` is a reserved
reconstruction-index sentinel from a header not among the sources; per the
spec it "signals end-of-stream rather than a real slot", so it is a value
outside the non-negative range of real indices. -/
def RECON_IDX_FLAG_ENC_END : Int := -1

/-- `v4l2_m2m_src_buf_remove_by_idx`: remove (and return) the queued source
buffer with the given vb2 index; the queue is unchanged when no buffer
matches. -/
def v4l2_m2m_src_buf_remove_by_idx :
    List VpuSrcBuf → Int → Option VpuSrcBuf × List VpuSrcBuf
  | [], _ => (none, [])
  | b :: bs, idx =>
    if (b.index : Int) = idx then (some b, bs)
    else
      let r := v4l2_m2m_src_buf_remove_by_idx bs idx
      (r.1, b :: r.2)

/-- Modelled from the spec: `wave6_get_dst_buf_by_addr` lives in a driver
file not among the sources; per the spec the completion handler "resolves
… the output buffer by matching bitstream address", a pure lookup. -/
def wave6_get_dst_buf_by_addr (l : List VpuDstBuf) (addr : Nat) :
    Option VpuDstBuf :=
  l.find? (fun b => b.addr = addr)

/-- `v4l2_m2m_dst_buf_remove_by_buf` applied to the buffer found at `addr`:
drop the first queued destination buffer with that address. -/
def removeDstByAddr : List VpuDstBuf → Nat → List VpuDstBuf
  | [], _ => []
  | b :: bs, a => if b.addr = a then bs else b :: removeDstByAddr bs a

/-- `wave6_handle_encoded_frame`: resolve the source buffer by index (the
m2m helper removes it when found) and the destination buffer by bitstream
address; on any resolution failure drop the event.  Otherwise retire the
source with the success/error state, stamp the destination with payload,
sequence number (post-incremented) and picture-type flag, account an error
frame if needed, and retire the destination. -/
def wave6_handle_encoded_frame (inst : VpuInstance) (info : EncOutputInfo) :
    VpuInstance :=
  let state := if info.encoding_success then VbBufState.DONE
               else VbBufState.ERROR
  match v4l2_m2m_src_buf_remove_by_idx inst.src_bufs info.enc_src_idx with
  | (none, _) => inst
  | (some src, src_rest) =>
    if !src.consumed then { inst with src_bufs := src_rest }
    else
      match wave6_get_dst_buf_by_addr inst.dst_bufs info.bitstream_buffer with
      | none => { inst with src_bufs := src_rest }
      | some dst =>
        { inst with
            src_bufs := src_rest
            src_done := inst.src_done ++ [(src, state)]
            dst_bufs := removeDstByAddr inst.dst_bufs info.bitstream_buffer
            dst_done := inst.dst_done ++
              [({ dst with payload := some info.bitstream_size,
                           sequence := some inst.sequence,
                           pic_flag := some info.pic_type }, state)]
            sequence := inst.sequence + 1
            processed_buf_num := inst.processed_buf_num + 1
            error_recovery :=
              if state = VbBufState.ERROR then true else inst.error_recovery
            error_buf_num :=
              if state = VbBufState.ERROR then inst.error_buf_num + 1
              else inst.error_buf_num }

/-- `wave6_handle_last_frame`: the drain marker.  The addressed destination
buffer gets zero payload and the `LAST` flag, is retired as `DONE`, the
instance moves to `PIC_RUN` with `eos` recorded, and
`v4l2_m2m_set_src_buffered(…, false)` clears the buffered-source mode. -/
def wave6_handle_last_frame (inst : VpuInstance) (addr : Nat) : VpuInstance :=
  match wave6_get_dst_buf_by_addr inst.dst_bufs addr with
  | none => inst
  | some dst =>
    { inst with
        dst_bufs := removeDstByAddr inst.dst_bufs addr
        dst_done := inst.dst_done ++
          [({ dst with payload := some 0, last := true }, VbBufState.DONE)]
        state := VpuInstState.PIC_RUN
        eos := true
        src_buffered := false }

/-- `wave6_vpu_enc_finish_encode`: on a hardware error flag both queues are
faulted and the instance stops with `eos`; otherwise the output info is
fetched (its failure drops the event) and the event is dispatched on
`(enc_src_idx, recon_frame_index)`. -/
def wave6_vpu_enc_finish_encode (inst : VpuInstance) (error : Bool)
    (get_info_ret : Int) (info : EncOutputInfo) : VpuInstance :=
  if error then
    { inst with
        src_q_error := true
        dst_q_error := true
        state := VpuInstState.STOP
        eos := true }
  else if get_info_ret ≠ 0 then inst
  else if info.enc_src_idx ≥ 0 ∧ info.recon_frame_index ≥ 0 then
    wave6_handle_encoded_frame inst info
  else if info.recon_frame_index = RECON_IDX_FLAG_ENC_END then
    wave6_handle_last_frame inst info.bitstream_buffer
  else inst

/-- C7: a completion event whose input-buffer index or bitstream address
cannot be resolved to a queued buffer is dropped: the processed and error
counters, the sequence number and the lifecycle state are unchanged, and no
buffer is retired (the done lists are untouched). -/
theorem handle_encoded_frame_drops_unresolvable (inst : VpuInstance)
    (info : EncOutputInfo)
    (h : (v4l2_m2m_src_buf_remove_by_idx inst.src_bufs info.enc_src_idx).1 =
           none ∨
         wave6_get_dst_buf_by_addr inst.dst_bufs info.bitstream_buffer =
           none) :
    (wave6_handle_encoded_frame inst info).processed_buf_num =
      inst.processed_buf_num ∧
    (wave6_handle_encoded_frame inst info).error_buf_num =
      inst.error_buf_num ∧
    (wave6_handle_encoded_frame inst info).sequence = inst.sequence ∧
    (wave6_handle_encoded_frame inst info).state = inst.state ∧
    (wave6_handle_encoded_frame inst info).src_done = inst.src_done ∧
    (wave6_handle_encoded_frame inst info).dst_done = inst.dst_done := by
  cases hr : v4l2_m2m_src_buf_remove_by_idx inst.src_bufs info.enc_src_idx with
  | mk o rest =>
    cases o with
    | none => simp [wave6_handle_encoded_frame, hr]
    | some src =>
      rcases h with h | h
      · rw [hr] at h
        simp at h
      · by_cases hcons : src.consumed
        · simp [wave6_handle_encoded_frame, hr, hcons, h]
        · simp [wave6_handle_encoded_frame, hr, hcons]

/-- Completion info referencing a source index that is not queued. -/
def infoBadIdx : EncOutputInfo :=
  { encoding_success := true, enc_src_idx := 7, recon_frame_index := 0
    bitstream_buffer := 4096, bitstream_size := 100, pic_type := PicType.I }

/-- Closed instantiation of `handle_encoded_frame_drops_unresolvable`: an
unresolvable source index leaves sequence, counters and state unchanged. -/
theorem handle_encoded_frame_drops_unresolvable_witness :
    (wave6_handle_encoded_frame instBoth infoBadIdx).sequence =
      instBoth.sequence ∧
    (wave6_handle_encoded_frame instBoth infoBadIdx).state = instBoth.state := by
  have h := handle_encoded_frame_drops_unresolvable instBoth infoBadIdx
    (Or.inl (by decide))
  exact ⟨h.2.2.1, h.2.2.2.1⟩

/-- C8: a completion event carrying the reserved encode-end reconstruction
index retires the addressed output buffer as `DONE` with zero payload and
the `LAST` flag, moves the instance to `PIC_RUN`, records end-of-stream, and
does not advance the processed counter or the sequence number. -/
theorem finish_encode_drain_marker (inst : VpuInstance) (info : EncOutputInfo)
    (dst : VpuDstBuf)
    (hrecon : info.recon_frame_index = RECON_IDX_FLAG_ENC_END)
    (hdst : wave6_get_dst_buf_by_addr inst.dst_bufs info.bitstream_buffer =
      some dst) :
    (wave6_vpu_enc_finish_encode inst false 0 info).state =
      VpuInstState.PIC_RUN ∧
    (wave6_vpu_enc_finish_encode inst false 0 info).eos = true ∧
    (wave6_vpu_enc_finish_encode inst false 0 info).dst_done =
      inst.dst_done ++
        [({ dst with payload := some 0, last := true }, VbBufState.DONE)] ∧
    (wave6_vpu_enc_finish_encode inst false 0 info).dst_bufs =
      removeDstByAddr inst.dst_bufs info.bitstream_buffer ∧
    (wave6_vpu_enc_finish_encode inst false 0 info).processed_buf_num =
      inst.processed_buf_num ∧
    (wave6_vpu_enc_finish_encode inst false 0 info).sequence =
      inst.sequence := by
  have hneg : ¬(info.enc_src_idx ≥ 0 ∧ info.recon_frame_index ≥ 0) := by
    rw [hrecon]
    intro hc
    exact absurd hc.2 (by decide)
  simp only [wave6_vpu_enc_finish_encode, if_neg (Bool.false_ne_true ∘ id),
    Bool.false_eq_true, if_false]
  rw [if_neg (by simp), if_neg hneg, if_pos hrecon]
  unfold wave6_handle_last_frame
  rw [hdst]
  exact ⟨rfl, rfl, rfl, rfl, rfl, rfl⟩

/-- A stopped instance draining into one queued destination buffer. -/
def infoDrain : EncOutputInfo :=
  { encoding_success := true, enc_src_idx := -1, recon_frame_index := -1
    bitstream_buffer := 4096, bitstream_size := 0, pic_type := PicType.I }

/-- Closed instantiation of `finish_encode_drain_marker`: the drain marker
on the stopped one-buffer instance quiesces it to `PIC_RUN` with `eos`. -/
theorem finish_encode_drain_marker_witness :
    (wave6_vpu_enc_finish_encode instEOS false 0 infoDrain).state =
      VpuInstState.PIC_RUN ∧
    (wave6_vpu_enc_finish_encode instEOS false 0 infoDrain).eos = true := by
  have h := finish_encode_drain_marker instEOS infoDrain dstBuf₀ (by decide)
    (by decide)
  exact ⟨h.1, h.2.1⟩

/-! ## The ROI map writer (C10)

`wave6_vpu_enc_set_roi_map` (lines 1213–1234). -/

/-- The destination byte offset computed inside the loop of
`wave6_vpu_enc_set_roi_map` for CTU cell `(i, j)`:
`index * group.width * group.height + sub_index` with
`sub_index = group.width * (i % group.height) + (j % group.width)` and
`index = num_group_col * (i / group.height) + (j / group.width)`. -/
def roiDestIdx (roi : VpuRoiMapInfo) (i j : Nat) : Nat :=
  (roi.num_group_col * (i / roi.group.height) + j / roi.group.width) *
      (roi.group.width * roi.group.height) +
    (roi.group.width * (i % roi.group.height) + j % roi.group.width)

/-- `item = (char)(*(user_map + …)); … item & 0x3f`: the low byte of the
signed 32-bit entry, masked to 6 bits. -/
def roiItem (v : Int) : Nat := (v % 256).toNat &&& 0x3f

/-- `wave6_vpu_enc_set_roi_map`: leaves the map untouched unless the entry
count equals the stored CTU count, and otherwise writes each CTU entry,
masked to 6 bits, at its group-interleaved offset. -/
def wave6_vpu_enc_set_roi_map (inst : VpuInstance) (user_map : List Int)
    (count : Nat) : VpuInstance :=
  if count ≠ inst.roi_info.num_ctu then inst
  else
    { inst with
        custom_qp_map :=
          (List.range inst.roi_info.num_ctu_row).foldl (fun m i =>
            (List.range inst.roi_info.num_ctu_col).foldl (fun m j =>
              m.set (roiDestIdx inst.roi_info i j)
                (roiItem
                  (user_map.getD (i * inst.roi_info.num_ctu_col + j) 0)))
            m) inst.custom_qp_map }

/-! Mixed-radix facts used for the ROI offsets. -/

theorem mixed_radix_lt (a b A B : Nat) (ha : a < A) (hb : b < B) :
    B * a + b < A * B := by
  calc B * a + b < B * a + B := by omega
    _ = B * (a + 1) := by ring
    _ ≤ B * A := Nat.mul_le_mul_left _ ha
    _ = A * B := Nat.mul_comm _ _

theorem mixed_radix_inj (B a b a' b' : Nat) (hb : b < B) (hb' : b' < B)
    (h : a * B + b = a' * B + b') : a = a' ∧ b = b' := by
  have hB : 0 < B := by omega
  have e1 : (a * B + b) / B = a := by
    rw [Nat.add_comm, Nat.add_mul_div_right b a hB, Nat.div_eq_of_lt hb]
    omega
  have e2 : (a' * B + b') / B = a' := by
    rw [Nat.add_comm, Nat.add_mul_div_right b' a' hB, Nat.div_eq_of_lt hb']
    omega
  have haa : a = a' := by rw [← e1, ← e2, h]
  subst haa
  exact ⟨rfl, by omega⟩

/-- Geometry facts about `wave6_vpu_enc_get_roi_info` needed for the map
writer: the CTU grid fits inside the group grid, the group is nonempty, and
the map size is the group-cell count. -/
theorem roi_geom_bounds (std : CodecStd) (w h : Nat) :
    (wave6_vpu_enc_get_roi_info std w h).num_ctu_col ≤
      (wave6_vpu_enc_get_roi_info std w h).group.width *
        (wave6_vpu_enc_get_roi_info std w h).num_group_col ∧
    (wave6_vpu_enc_get_roi_info std w h).num_ctu_row ≤
      (wave6_vpu_enc_get_roi_info std w h).group.height *
        (wave6_vpu_enc_get_roi_info std w h).num_group_row ∧
    0 < (wave6_vpu_enc_get_roi_info std w h).group.width ∧
    0 < (wave6_vpu_enc_get_roi_info std w h).group.height ∧
    (wave6_vpu_enc_get_roi_info std w h).custom_map_size =
      (wave6_vpu_enc_get_roi_info std w h).num_group_col *
        (wave6_vpu_enc_get_roi_info std w h).num_group_row *
        ((wave6_vpu_enc_get_roi_info std w h).group.width *
          (wave6_vpu_enc_get_roi_info std w h).group.height) := by
  cases std <;>
    simp [wave6_vpu_enc_get_roi_info, DIV_ROUND_UP, ALIGN, round_up,
      W6_ENC_CTU_WIDTH_ALIGNMENT] <;>
    omega

/-- In-bounds offsets: every destination index of the map writer is below
the stored map size (for geometry produced by
`wave6_vpu_enc_get_roi_info`). -/
theorem roiDestIdx_lt (roi : VpuRoiMapInfo)
    (hcw : roi.num_ctu_col ≤ roi.group.width * roi.num_group_col)
    (hch : roi.num_ctu_row ≤ roi.group.height * roi.num_group_row)
    (hgw : 0 < roi.group.width) (hgh : 0 < roi.group.height)
    (hms : roi.custom_map_size =
      roi.num_group_col * roi.num_group_row *
        (roi.group.width * roi.group.height))
    (i j : Nat) (hi : i < roi.num_ctu_row) (hj : j < roi.num_ctu_col) :
    roiDestIdx roi i j < roi.custom_map_size := by
  unfold roiDestIdx
  rw [hms]
  have hqi : i / roi.group.height < roi.num_group_row := by
    rw [Nat.div_lt_iff_lt_mul hgh]
    calc i < roi.num_ctu_row := hi
      _ ≤ roi.group.height * roi.num_group_row := hch
      _ = roi.num_group_row * roi.group.height := Nat.mul_comm _ _
  have hqj : j / roi.group.width < roi.num_group_col := by
    rw [Nat.div_lt_iff_lt_mul hgw]
    calc j < roi.num_ctu_col := hj
      _ ≤ roi.group.width * roi.num_group_col := hcw
      _ = roi.num_group_col * roi.group.width := Nat.mul_comm _ _
  have hG : roi.num_group_col * (i / roi.group.height) + j / roi.group.width <
      roi.num_group_row * roi.num_group_col :=
    mixed_radix_lt _ _ _ _ hqi hqj
  have hsub : roi.group.width * (i % roi.group.height) + j % roi.group.width <
      roi.group.height * roi.group.width :=
    mixed_radix_lt _ _ _ _ (Nat.mod_lt _ hgh) (Nat.mod_lt _ hgw)
  have hcomm1 : roi.num_group_row * roi.num_group_col =
      roi.num_group_col * roi.num_group_row := Nat.mul_comm _ _
  have hcomm2 : roi.group.height * roi.group.width =
      roi.group.width * roi.group.height := Nat.mul_comm _ _
  set G := roi.num_group_col * (i / roi.group.height) + j / roi.group.width
  set S := roi.group.width * (i % roi.group.height) + j % roi.group.width
  set M := roi.num_group_col * roi.num_group_row
  set A := roi.group.width * roi.group.height
  have h1 : G + 1 ≤ M := by omega
  have h2 : S < A := by omega
  calc G * A + S < G * A + A := by omega
    _ = (G + 1) * A := by ring
    _ ≤ M * A := Nat.mul_le_mul_right _ h1

/-- Injectivity of the destination offsets: each CTU cell is written at its
own offset, so every entry is written exactly once. -/
theorem roiDestIdx_inj (roi : VpuRoiMapInfo)
    (hcw : roi.num_ctu_col ≤ roi.group.width * roi.num_group_col)
    (hgw : 0 < roi.group.width) (hgh : 0 < roi.group.height)
    (i j i' j' : Nat)
    (hj : j < roi.num_ctu_col) (hj' : j' < roi.num_ctu_col)
    (h : roiDestIdx roi i j = roiDestIdx roi i' j') : i = i' ∧ j = j' := by
  unfold roiDestIdx at h
  have hcomm : roi.group.height * roi.group.width =
      roi.group.width * roi.group.height := Nat.mul_comm _ _
  have hsub : roi.group.width * (i % roi.group.height) + j % roi.group.width <
      roi.group.width * roi.group.height := by
    have := mixed_radix_lt (i % roi.group.height) (j % roi.group.width)
      roi.group.height roi.group.width (Nat.mod_lt _ hgh) (Nat.mod_lt _ hgw)
    omega
  have hsub' : roi.group.width * (i' % roi.group.height) +
      j' % roi.group.width < roi.group.width * roi.group.height := by
    have := mixed_radix_lt (i' % roi.group.height) (j' % roi.group.width)
      roi.group.height roi.group.width (Nat.mod_lt _ hgh) (Nat.mod_lt _ hgw)
    omega
  obtain ⟨hG, hS⟩ := mixed_radix_inj _ _ _ _ _ hsub hsub' h
  have hqj : j / roi.group.width < roi.num_group_col := by
    rw [Nat.div_lt_iff_lt_mul hgw]
    calc j < roi.num_ctu_col := hj
      _ ≤ roi.group.width * roi.num_group_col := hcw
      _ = roi.num_group_col * roi.group.width := Nat.mul_comm _ _
  have hqj' : j' / roi.group.width < roi.num_group_col := by
    rw [Nat.div_lt_iff_lt_mul hgw]
    calc j' < roi.num_ctu_col := hj'
      _ ≤ roi.group.width * roi.num_group_col := hcw
      _ = roi.num_group_col * roi.group.width := Nat.mul_comm _ _
  have hG' : (i / roi.group.height) * roi.num_group_col + j / roi.group.width =
      (i' / roi.group.height) * roi.num_group_col + j' / roi.group.width := by
    have c1 : roi.num_group_col * (i / roi.group.height) =
        (i / roi.group.height) * roi.num_group_col := Nat.mul_comm _ _
    have c2 : roi.num_group_col * (i' / roi.group.height) =
        (i' / roi.group.height) * roi.num_group_col := Nat.mul_comm _ _
    omega
  obtain ⟨hdi, hdj⟩ := mixed_radix_inj _ _ _ _ _ hqj hqj' hG'
  have hS' : (i % roi.group.height) * roi.group.width + j % roi.group.width =
      (i' % roi.group.height) * roi.group.width + j' % roi.group.width := by
    have c1 : roi.group.width * (i % roi.group.height) =
        (i % roi.group.height) * roi.group.width := Nat.mul_comm _ _
    have c2 : roi.group.width * (i' % roi.group.height) =
        (i' % roi.group.height) * roi.group.width := Nat.mul_comm _ _
    omega
  obtain ⟨hri, hrj⟩ := mixed_radix_inj _ _ _ _ _
    (Nat.mod_lt j hgw) (Nat.mod_lt j' hgw) hS'
  constructor
  · have e := Nat.div_add_mod i roi.group.height
    have e' := Nat.div_add_mod i' roi.group.height
    rw [hdi, hri] at e
    omega
  · have e := Nat.div_add_mod j roi.group.width
    have e' := Nat.div_add_mod j' roi.group.width
    rw [hdj, hrj] at e
    omega

theorem roiItem_le (v : Int) : roiItem v ≤ 0x3f :=
  Nat.and_le_right

/-- A `List.set` leaves an entry unchanged or stores the written value. -/
theorem getD_set_cases : ∀ (m : List Nat) (idx v k : Nat),
    (m.set idx v).getD k 0 = m.getD k 0 ∨ (m.set idx v).getD k 0 = v
  | [], _, _, _ => Or.inl rfl
  | _ :: _, 0, _, 0 => Or.inr rfl
  | _ :: _, 0, _, _ + 1 => Or.inl rfl
  | _ :: _, _ + 1, _, 0 => Or.inl rfl
  | _ :: as, i + 1, v, k + 1 => getD_set_cases as i v k

/-- A fold whose every step either preserves an entry or stores a masked
value keeps every entry either unchanged or masked. -/
theorem foldl_preserves_getD {α : Type} (g : List Nat → α → List Nat)
    (hg : ∀ m a k, (g m a).getD k 0 = m.getD k 0 ∨ (g m a).getD k 0 ≤ 0x3f) :
    ∀ (l : List α) (m : List Nat) (k : Nat),
      (l.foldl g m).getD k 0 = m.getD k 0 ∨ (l.foldl g m).getD k 0 ≤ 0x3f
  | [], _, _ => Or.inl rfl
  | a :: as, m, k => by
    rw [List.foldl_cons]
    rcases foldl_preserves_getD g hg as (g m a) k with h | h
    · rcases hg m a k with h2 | h2
      · exact Or.inl (by rw [h, h2])
      · exact Or.inr (by rw [h]; exact h2)
    · exact Or.inr h

/-- C10: the ROI map write is total and in-bounds.  With the stored geometry
produced by `wave6_vpu_enc_get_roi_info`: a mismatching entry count leaves
the instance unchanged; every destination offset of the writer is below the
stored map size; distinct CTU cells are written at distinct offsets (each
entry is written exactly once); and every byte the writer stores is masked
to 6 bits, so each map entry is either its previous value or at most
`0x3f`. -/
theorem set_roi_map_safe (std : CodecStd) (w h : Nat) (inst : VpuInstance)
    (hroi : inst.roi_info = wave6_vpu_enc_get_roi_info std w h)
    (user_map : List Int) (count : Nat) :
    (count ≠ inst.roi_info.num_ctu →
      wave6_vpu_enc_set_roi_map inst user_map count = inst) ∧
    (∀ i j, i < inst.roi_info.num_ctu_row → j < inst.roi_info.num_ctu_col →
      roiDestIdx inst.roi_info i j < inst.roi_info.custom_map_size) ∧
    (∀ i j i' j', j < inst.roi_info.num_ctu_col →
      j' < inst.roi_info.num_ctu_col →
      roiDestIdx inst.roi_info i j = roiDestIdx inst.roi_info i' j' →
      i = i' ∧ j = j') ∧
    (∀ k, ((wave6_vpu_enc_set_roi_map inst user_map count).custom_qp_map).getD
        k 0 = inst.custom_qp_map.getD k 0 ∨
      ((wave6_vpu_enc_set_roi_map inst user_map count).custom_qp_map).getD
        k 0 ≤ 0x3f) := by
  obtain ⟨hcw, hch, hgw, hgh, hms⟩ := roi_geom_bounds std w h
  refine ⟨?_, ?_, ?_, ?_⟩
  · intro hc
    unfold wave6_vpu_enc_set_roi_map
    rw [if_pos hc]
  · intro i j hi hj
    rw [hroi] at hi hj ⊢
    exact roiDestIdx_lt _ hcw hch hgw hgh hms i j hi hj
  · intro i j i' j' hj hj' heq
    rw [hroi] at hj hj' heq
    exact roiDestIdx_inj _ hcw hgw hgh i j i' j' hj hj' heq
  · intro k
    by_cases hc : count ≠ inst.roi_info.num_ctu
    · unfold wave6_vpu_enc_set_roi_map
      rw [if_pos hc]
      exact Or.inl rfl
    · unfold wave6_vpu_enc_set_roi_map
      rw [if_neg hc]
      refine foldl_preserves_getD _ ?_ _ _ _
      intro m i k'
      refine foldl_preserves_getD _ ?_ _ _ _
      intro m' j k''
      rcases getD_set_cases m' (roiDestIdx inst.roi_info i j)
          (roiItem (user_map.getD (i * inst.roi_info.num_ctu_col + j) 0))
          k'' with hcase | hcase
      · exact Or.inl hcase
      · exact Or.inr (by rw [hcase]; exact roiItem_le _)

/-- An instance whose stored geometry is the one computed for a 64×64 HEVC
codec rectangle (a 2×2 CTU grid in one group, map size 4). -/
def instROI : VpuInstance :=
  { inst₀ with
      roi_info := wave6_vpu_enc_get_roi_info CodecStd.W_HEVC_ENC 64 64
      custom_qp_map := [9, 9, 9, 9] }

/-- Closed instantiation of `set_roi_map_safe`: on the 64×64 HEVC geometry
the offset of CTU cell (1,1) is in bounds, and a wrong entry count leaves
the map untouched. -/
theorem set_roi_map_safe_witness :
    roiDestIdx instROI.roi_info 1 1 < instROI.roi_info.custom_map_size ∧
    wave6_vpu_enc_set_roi_map instROI [1, 2, 3] 3 = instROI := by
  have h := set_roi_map_safe CodecStd.W_HEVC_ENC 64 64 instROI rfl [1, 2, 3] 3
  exact ⟨h.2.1 1 1 (by decide) (by decide), h.1 (by decide)⟩

/-! ## Instance lifecycle (C9)

The remaining operations that write `inst->state`:
`wave6_vpu_enc_create_instance` (lines 2221–2264),
`wave6_vpu_enc_destroy_instance` (lines 441–462), the guarded phases of
`wave6_vpu_enc_start_streaming` (lines 2512–2570),
`wave6_vpu_enc_stop_streaming` (lines 2572–2615), and the `V4L2_ENC_CMD_STOP`
branch of `wave6_vpu_enc_encoder_cmd` (lines 1508–1535). -/

/-- `wave6_vpu_enc_create_instance`: runtime-resume, scratch allocation and
the firmware open command are external calls whose results are passed in; on
success the state becomes `OPEN`, any failure unwinds and leaves the state
untouched. -/
def wave6_vpu_enc_create_instance (inst : VpuInstance)
    (pm_ret alloc_ret open_ret : Int) : Int × VpuInstance :=
  if pm_ret ≠ 0 then (pm_ret, inst)
  else if alloc_ret ≠ 0 then (alloc_ret, inst)
  else if open_ret ≠ 0 then (open_ret, inst)
  else (0, { inst with state := VpuInstState.OPEN })

/-- `wave6_vpu_enc_destroy_instance`: issues the close command (its failure
is logged and ignored), frees the frame/auxiliary/scratch buffers, and
unconditionally resets the state to `NONE`. -/
def wave6_vpu_enc_destroy_instance (inst : VpuInstance) : VpuInstance :=
  { inst with state := VpuInstState.NONE }

/-- The `state == OPEN` phase of `wave6_vpu_enc_start_streaming` (lines
2548–2554): run `wave6_vpu_enc_initialize_instance`; on a nonzero result the
caller destroys the instance. -/
def startStreamingInitPhase (inst : VpuInstance)
    (issue_ret wait_ret complete_ret : Int) : VpuInstance :=
  let r := wave6_vpu_enc_initialize_instance inst.state issue_ret wait_ret
    complete_ret
  if r.1 ≠ 0 then wave6_vpu_enc_destroy_instance { inst with state := r.2 }
  else { inst with state := r.2 }

/-- The `state == INIT_SEQ` phase of `wave6_vpu_enc_start_streaming` (lines
2556–2562) running `wave6_vpu_enc_prepare_fb` (lines 2314–2386): the DMA
allocations and firmware registrations are summarised by `ret`; success sets
`PIC_RUN`, failure releases the frame buffers and the caller destroys the
instance. -/
def startStreamingPrepareFbPhase (inst : VpuInstance) (ret : Int) :
    VpuInstance :=
  if ret ≠ 0 then wave6_vpu_enc_destroy_instance inst
  else { inst with state := VpuInstState.PIC_RUN }

/-- `wave6_vpu_enc_stop_streaming`: nothing happens with no instance; with
both queues streaming the state becomes `STOP`; the stopping queue's
counters are reset (source side: telemetry, sequence, buffered mode;
capture side: `eos`); and when the peer queue is no longer streaming the
instance is destroyed. -/
def wave6_vpu_enc_stop_streaming (inst : VpuInstance)
    (q_is_output both_streaming peer_streaming : Bool) : VpuInstance :=
  if inst.state = VpuInstState.NONE then inst
  else
    let inst1 :=
      if both_streaming then { inst with state := VpuInstState.STOP }
      else inst
    let inst2 :=
      if q_is_output then
        { inst1 with
            processed_buf_num := 0
            error_buf_num := 0
            sequence := 0
            src_buffered := false }
      else { inst1 with eos := false }
    if !peer_streaming ∧ inst2.state ≠ VpuInstState.NONE then
      wave6_vpu_enc_destroy_instance inst2
    else inst2

/-- The `V4L2_ENC_CMD_STOP` branch of `wave6_vpu_enc_encoder_cmd` (both
queues streaming): force `STOP` and turn on buffered-source mode. -/
def wave6_vpu_enc_encoder_cmd_stop (inst : VpuInstance) : VpuInstance :=
  { inst with state := VpuInstState.STOP, src_buffered := true }

/-! State-effect lemmas for the completion and cycle paths. -/

theorem handle_encoded_frame_state_eq (inst : VpuInstance)
    (info : EncOutputInfo) :
    (wave6_handle_encoded_frame inst info).state = inst.state := by
  unfold wave6_handle_encoded_frame
  repeat' split
  all_goals rfl

theorem handle_last_frame_state_cases (inst : VpuInstance) (addr : Nat) :
    (wave6_handle_last_frame inst addr).state = inst.state ∨
    (wave6_handle_last_frame inst addr).state = VpuInstState.PIC_RUN := by
  unfold wave6_handle_last_frame
  split
  · exact Or.inl rfl
  · exact Or.inr rfl

theorem finish_encode_state_cases (inst : VpuInstance) (err : Bool)
    (gret : Int) (info : EncOutputInfo) :
    (wave6_vpu_enc_finish_encode inst err gret info).state = inst.state ∨
    (wave6_vpu_enc_finish_encode inst err gret info).state =
      VpuInstState.STOP ∨
    ((wave6_vpu_enc_finish_encode inst err gret info).state =
        VpuInstState.PIC_RUN ∧
      info.recon_frame_index = RECON_IDX_FLAG_ENC_END) := by
  unfold wave6_vpu_enc_finish_encode
  split
  · exact Or.inr (Or.inl rfl)
  · split
    · exact Or.inl rfl
    · split
      · exact Or.inl (handle_encoded_frame_state_eq inst info)
      · split
        · next hrecon =>
          rcases handle_last_frame_state_cases inst info.bitstream_buffer
            with h | h
          · exact Or.inl h
          · exact Or.inr (Or.inr ⟨h, hrecon⟩)
        · exact Or.inl rfl

theorem startEncodeFailCleanup_state (inst1 : VpuInstance) :
    (startEncodeFailCleanup inst1).state = VpuInstState.STOP := by
  unfold startEncodeFailCleanup
  cases hD : inst1.dst_bufs <;> cases hS : inst1.src_bufs <;> simp [hD, hS]

theorem pick_state_eq (inst inst1 : VpuInstance) (p : EncParam)
    (hp : wave6_enc_pick_and_mark inst = some (inst1, p)) :
    inst1.state = inst.state := by
  unfold wave6_enc_pick_and_mark at hp
  cases hD : wave6_get_valid_dst_buf inst.dst_bufs with
  | none => rw [hD] at hp; exact absurd hp (by simp)
  | some d =>
    rw [hD] at hp
    cases hS : wave6_get_valid_src_buf inst.src_bufs with
    | none =>
      rw [hS] at hp
      by_cases hstop : inst.state = VpuInstState.STOP
      · rw [if_pos hstop] at hp
        obtain ⟨h1, _⟩ := Prod.mk.injEq .. ▸ Option.some.inj hp
        rw [← h1]
      · rw [if_neg hstop] at hp
        cases hp
    | some s0 =>
      rw [hS] at hp
      obtain ⟨h1, _⟩ := Prod.mk.injEq .. ▸ Option.some.inj hp
      rw [← h1]

theorem start_encode_state_cases (inst : VpuInstance) (si : Int) (sc : Bool)
    (sw sr : Int) :
    (wave6_vpu_enc_start_encode inst si sc sw sr).inst.state = inst.state ∨
    (wave6_vpu_enc_start_encode inst si sc sw sr).inst.state =
      VpuInstState.STOP := by
  by_cases hs : wave6_update_seq_param si sc sw = 0
  · cases hp : wave6_enc_pick_and_mark inst with
    | none => simp [wave6_vpu_enc_start_encode, hs, hp]
    | some x =>
      obtain ⟨i1, p⟩ := x
      by_cases hr : sr = 0
      · simp [wave6_vpu_enc_start_encode, hs, hp, hr,
          pick_state_eq inst i1 p hp]
      · simp [wave6_vpu_enc_start_encode, hs, hp, hr,
          startEncodeFailCleanup_state]
  · simp [wave6_vpu_enc_start_encode, hs]

/-- The engine submits a source-end request only while stopped, and a
successful submission leaves the state unchanged: if the cycle submitted a
request with the source-end flag and the submission succeeded, the instance
is (still) in `STOP`. -/
theorem start_encode_src_end_stop (inst : VpuInstance) (si : Int) (sc : Bool)
    (sw sr : Int) (p : EncParam)
    (hsub : (wave6_vpu_enc_start_encode inst si sc sw sr).submitted = some p)
    (hse : p.src_end = true)
    (hret : (wave6_vpu_enc_start_encode inst si sc sw sr).ret = 0) :
    (wave6_vpu_enc_start_encode inst si sc sw sr).inst.state =
      VpuInstState.STOP := by
  by_cases hs : wave6_update_seq_param si sc sw = 0
  · cases hp : wave6_enc_pick_and_mark inst with
    | none => rw [start_encode_submitted_eq inst si sc sw sr hs, hp] at hsub
              cases hsub
    | some x =>
      obtain ⟨i1, p'⟩ := x
      by_cases hr : sr = 0
      · have hp' : p' = p := by
          rw [start_encode_submitted_eq inst si sc sw sr hs, hp] at hsub
          exact Option.some.inj hsub
        have hse' : p'.src_end = true := by rw [hp']; exact hse
        have hstate : i1.state = inst.state := pick_state_eq inst i1 p' hp
        have hstop : inst.state = VpuInstState.STOP := by
          unfold wave6_enc_pick_and_mark at hp
          cases hD : wave6_get_valid_dst_buf inst.dst_bufs with
          | none => rw [hD] at hp; exact absurd hp (by simp)
          | some d =>
            rw [hD] at hp
            cases hS : wave6_get_valid_src_buf inst.src_bufs with
            | none =>
              rw [hS] at hp
              by_cases hst : inst.state = VpuInstState.STOP
              · exact hst
              · rw [if_neg hst] at hp; cases hp
            | some s0 =>
              rw [hS] at hp
              obtain ⟨_, h2⟩ := Prod.mk.injEq .. ▸ Option.some.inj hp
              rw [← h2] at hse'
              cases hse'
        simp [wave6_vpu_enc_start_encode, hs, hp, hr, hstate, hstop]
      · exfalso
        apply hr
        have : (wave6_vpu_enc_start_encode inst si sc sw sr).ret = sr := by
          simp [wave6_vpu_enc_start_encode, hs, hp, hr]
        rw [this] at hret
        exact hret
  · rw [show (wave6_vpu_enc_start_encode inst si sc sw sr).submitted = none by
      simp [wave6_vpu_enc_start_encode, hs]] at hsub
    cases hsub

/-- The driver-visible state: the instance together with the m2m job slot.
`inflight = some se` records that a picture request was submitted
successfully and its completion is pending, `se` being its source-end flag
(the m2m framework runs one job at a time: `finish_process` follows a
successful `start_process`, and a new job starts only after the previous one
finished). -/
structure EncDriver where
  inst : VpuInstance
  inflight : Option Bool
deriving DecidableEq, Repr

/-- Job slot after one encode cycle: a completion becomes pending exactly
when a request was submitted and `wave6_vpu_enc_start_one_frame`
succeeded. -/
def encInflightAfter (r : StartEncodeResult) : Option Bool :=
  if r.ret = 0 then Option.map EncParam.src_end r.submitted else none

/-- One driver operation, at the granularity of the source functions that
write `inst->state`.  The three streaming-start phases carry the state
guards under which `wave6_vpu_enc_start_streaming` runs them (lines 2542,
2548, 2556).  `stop_q` and `close` require an empty job slot (the m2m core
waits for the running job before `stop_streaming`, and the file is released
only after the m2m context is).  `finish` requires a pending job and
carries the firmware discipline that the encode-end reconstruction index
only answers a source-end request (the drain protocol of the spec). -/
inductive EncStep : EncDriver → EncDriver → Prop where
  | create (s : EncDriver) (pm alloc opn : Int)
      (hst : s.inst.state = VpuInstState.NONE) :
      EncStep s ⟨(wave6_vpu_enc_create_instance s.inst pm alloc opn).2,
        s.inflight⟩
  | init_phase (s : EncDriver) (issue wait complete : Int)
      (hst : s.inst.state = VpuInstState.OPEN) :
      EncStep s ⟨startStreamingInitPhase s.inst issue wait complete,
        s.inflight⟩
  | prepare_phase (s : EncDriver) (ret : Int)
      (hst : s.inst.state = VpuInstState.INIT_SEQ) :
      EncStep s ⟨startStreamingPrepareFbPhase s.inst ret, s.inflight⟩
  | stop_q (s : EncDriver) (q_out both peer : Bool)
      (hjob : s.inflight = none) :
      EncStep s ⟨wave6_vpu_enc_stop_streaming s.inst q_out both peer, none⟩
  | cmd_stop (s : EncDriver) :
      EncStep s ⟨wave6_vpu_enc_encoder_cmd_stop s.inst, s.inflight⟩
  | close (s : EncDriver) (hjob : s.inflight = none) :
      EncStep s ⟨wave6_vpu_enc_destroy_instance s.inst, none⟩
  | start_enc (s : EncDriver) (si : Int) (sc : Bool) (sw sr : Int)
      (hjob : s.inflight = none) :
      EncStep s ⟨(wave6_vpu_enc_start_encode s.inst si sc sw sr).inst,
        encInflightAfter (wave6_vpu_enc_start_encode s.inst si sc sw sr)⟩
  | finish (s : EncDriver) (se err : Bool) (gret : Int)
      (info : EncOutputInfo)
      (hjob : s.inflight = some se)
      (hdrain : info.recon_frame_index = RECON_IDX_FLAG_ENC_END → se = true) :
      EncStep s ⟨wave6_vpu_enc_finish_encode s.inst err gret info, none⟩

/-- Single-in-flight discipline invariant: while a source-end request is
pending, the instance is stopped. -/
def EncInv (s : EncDriver) : Prop :=
  s.inflight = some true → s.inst.state = VpuInstState.STOP

theorem enc_inv_preserved (s s' : EncDriver) (h : EncStep s s')
    (hInv : EncInv s) : EncInv s' := by
  cases h with
  | create pm alloc opn hst =>
    intro hfl
    exact absurd ((hInv hfl).symm.trans hst) (by decide)
  | init_phase issue wait complete hst =>
    intro hfl
    exact absurd ((hInv hfl).symm.trans hst) (by decide)
  | prepare_phase ret hst =>
    intro hfl
    exact absurd ((hInv hfl).symm.trans hst) (by decide)
  | stop_q q_out both peer hjob =>
    intro hfl
    cases hfl
  | cmd_stop =>
    intro _
    rfl
  | close hjob =>
    intro hfl
    cases hfl
  | start_enc si sc sw sr hjob =>
    intro hfl
    simp only [encInflightAfter] at hfl
    by_cases hret : (wave6_vpu_enc_start_encode s.inst si sc sw sr).ret = 0
    · rw [if_pos hret] at hfl
      cases hsub : (wave6_vpu_enc_start_encode s.inst si sc sw sr).submitted
        with
      | none => rw [hsub] at hfl; cases hfl
      | some p =>
        rw [hsub] at hfl
        have hse : p.src_end = true := Option.some.inj hfl
        exact start_encode_src_end_stop s.inst si sc sw sr p hsub hse hret
    · rw [if_neg hret] at hfl
      cases hfl
  | finish se err gret info hjob hdrain =>
    intro hfl
    cases hfl

/-- Per-operation entry conditions for the lifecycle states. -/
theorem enc_step_entry (s s' : EncDriver) (h : EncStep s s') (hInv : EncInv s) :
    (s'.inst.state = VpuInstState.OPEN → s.inst.state ≠ VpuInstState.OPEN →
      s.inst.state = VpuInstState.NONE) ∧
    (s'.inst.state = VpuInstState.INIT_SEQ →
      s.inst.state ≠ VpuInstState.INIT_SEQ →
      s.inst.state = VpuInstState.OPEN) ∧
    (s'.inst.state = VpuInstState.PIC_RUN →
      s.inst.state ≠ VpuInstState.PIC_RUN →
      s.inst.state = VpuInstState.INIT_SEQ ∨
        s.inst.state = VpuInstState.STOP) := by
  cases h with
  | create pm alloc opn hst =>
    refine ⟨fun _ _ => hst, fun h1 _ => ?_, fun h1 _ => ?_⟩ <;>
    · by_cases h1' : pm = 0 <;> by_cases h2' : alloc = 0 <;>
        by_cases h3' : opn = 0 <;>
        simp [wave6_vpu_enc_create_instance, hst, h1', h2', h3'] at h1
  | init_phase issue wait complete hst =>
    refine ⟨fun _ h2 => absurd hst h2, fun _ _ => hst, fun h1 _ => ?_⟩
    by_cases h1' : issue = 0 <;> by_cases h2' : wait < 0 <;>
      by_cases h3' : complete = 0 <;>
      simp [startStreamingInitPhase, wave6_vpu_enc_initialize_instance,
        wave6_vpu_enc_destroy_instance, hst, h1', h2', h3'] at h1
  | prepare_phase ret hst =>
    refine ⟨fun h1 _ => ?_, fun h1 _ => ?_, fun _ _ => Or.inl hst⟩ <;>
    · by_cases h1' : ret = 0 <;>
        simp [startStreamingPrepareFbPhase, wave6_vpu_enc_destroy_instance,
          h1'] at h1
  | stop_q q_out both peer hjob =>
    have hcases : (wave6_vpu_enc_stop_streaming s.inst q_out both peer).state =
        s.inst.state ∨
        (wave6_vpu_enc_stop_streaming s.inst q_out both peer).state =
          VpuInstState.STOP ∨
        (wave6_vpu_enc_stop_streaming s.inst q_out both peer).state =
          VpuInstState.NONE := by
      by_cases hN : s.inst.state = VpuInstState.NONE
      · exact Or.inl (by simp [wave6_vpu_enc_stop_streaming, hN])
      · cases both <;> cases peer <;> cases q_out <;>
          simp [wave6_vpu_enc_stop_streaming,
            wave6_vpu_enc_destroy_instance, hN]
    refine ⟨fun h1 h2 => ?_, fun h1 h2 => ?_, fun h1 h2 => ?_⟩ <;>
    · have h1' : (wave6_vpu_enc_stop_streaming s.inst q_out both peer).state =
          _ := h1
      rcases hcases with hc | hc | hc <;>
        first
          | (exact absurd (hc.symm.trans h1') h2)
          | (exact absurd (hc.symm.trans h1') (by decide))
  | cmd_stop =>
    refine ⟨fun h1 _ => ?_, fun h1 _ => ?_, fun h1 _ => ?_⟩ <;>
    · have h1' : (wave6_vpu_enc_encoder_cmd_stop s.inst).state = _ := h1
      exact absurd ((by rfl :
          (wave6_vpu_enc_encoder_cmd_stop s.inst).state =
            VpuInstState.STOP).symm.trans h1') (by decide)
  | close hjob =>
    refine ⟨fun h1 _ => ?_, fun h1 _ => ?_, fun h1 _ => ?_⟩ <;>
    · have h1' : (wave6_vpu_enc_destroy_instance s.inst).state = _ := h1
      exact absurd ((by rfl :
          (wave6_vpu_enc_destroy_instance s.inst).state =
            VpuInstState.NONE).symm.trans h1') (by decide)
  | start_enc si sc sw sr hjob =>
    have hcases := start_encode_state_cases s.inst si sc sw sr
    refine ⟨fun h1 h2 => ?_, fun h1 h2 => ?_, fun h1 h2 => ?_⟩ <;>
    · have h1' : (wave6_vpu_enc_start_encode s.inst si sc sw sr).inst.state =
          _ := h1
      rcases hcases with hc | hc <;>
        first
          | (exact absurd (hc.symm.trans h1') h2)
          | (exact absurd (hc.symm.trans h1') (by decide))
  | finish se err gret info hjob hdrain =>
    have hcases := finish_encode_state_cases s.inst err gret info
    refine ⟨fun h1 h2 => ?_, fun h1 h2 => ?_, fun h1 h2 => ?_⟩
    · have h1' : (wave6_vpu_enc_finish_encode s.inst err gret info).state =
          _ := h1
      rcases hcases with hc | hc | ⟨hc, _⟩ <;>
        first
          | (exact absurd (hc.symm.trans h1') h2)
          | (exact absurd (hc.symm.trans h1') (by decide))
    · have h1' : (wave6_vpu_enc_finish_encode s.inst err gret info).state =
          _ := h1
      rcases hcases with hc | hc | ⟨hc, _⟩ <;>
        first
          | (exact absurd (hc.symm.trans h1') h2)
          | (exact absurd (hc.symm.trans h1') (by decide))
    · have h1' : (wave6_vpu_enc_finish_encode s.inst err gret info).state =
          _ := h1
      rcases hcases with hc | hc | ⟨hc, hrecon⟩
      · exact absurd (hc.symm.trans h1') h2
      · exact absurd (hc.symm.trans h1') (by decide)
      · refine Or.inr (hInv ?_)
        rw [hjob, hdrain hrecon]

/-- A run of the driver: consecutive elements are related by `EncStep`. -/
def EncRun : List EncDriver → Prop
  | [] => True
  | [_] => True
  | a :: b :: t => EncStep a b ∧ EncRun (b :: t)

theorem enc_run_no_regression_aux : ∀ (l : List EncDriver) (s0 : EncDriver),
    EncRun (s0 :: l) → EncInv s0 →
    (s0.inst.state = VpuInstState.PIC_RUN ∨
      s0.inst.state = VpuInstState.STOP) →
    ∀ sn, (s0 :: l).getLast? = some sn →
    (sn.inst.state = VpuInstState.OPEN ∨
      sn.inst.state = VpuInstState.INIT_SEQ) →
    ∃ d ∈ s0 :: l, d.inst.state = VpuInstState.NONE
  | [], s0, _, _, hs0, sn, hn, hsn => by
    have hsn' : sn = s0 := by
      have hx : ([s0] : List EncDriver).getLast? = some s0 := rfl
      rw [hx] at hn
      exact (Option.some.inj hn).symm
    subst hsn'
    rcases hs0 with h | h <;> rcases hsn with h' | h' <;> rw [h] at h' <;>
      cases h'
  | b :: t, s0, hrun, hInv, hs0, sn, hn, hsn => by
    obtain ⟨hstep, hrun'⟩ := hrun
    have hInv' : EncInv b := enc_inv_preserved s0 b hstep hInv
    have hentry := enc_step_entry s0 b hstep hInv
    have hn' : (b :: t).getLast? = some sn := by
      rw [← hn]
      exact List.getLast?_cons_cons.symm
    by_cases hbN : b.inst.state = VpuInstState.NONE
    · exact ⟨b, by simp, hbN⟩
    · have hb : b.inst.state = VpuInstState.PIC_RUN ∨
          b.inst.state = VpuInstState.STOP := by
        cases hbs : b.inst.state with
        | NONE => exact absurd hbs hbN
        | OPEN =>
          exfalso
          have hne : s0.inst.state ≠ VpuInstState.OPEN := by
            rcases hs0 with h | h <;> rw [h] <;> decide
          have := hentry.1 hbs hne
          rcases hs0 with h | h <;> rw [h] at this <;> cases this
        | INIT_SEQ =>
          exfalso
          have hne : s0.inst.state ≠ VpuInstState.INIT_SEQ := by
            rcases hs0 with h | h <;> rw [h] <;> decide
          have := hentry.2.1 hbs hne
          rcases hs0 with h | h <;> rw [h] at this <;> cases this
        | PIC_RUN => exact Or.inl rfl
        | STOP => exact Or.inr rfl
      obtain ⟨d, hd, hdN⟩ :=
        enc_run_no_regression_aux t b hrun' hInv' hb sn hn' hsn
      exact ⟨d, List.mem_cons_of_mem s0 hd, hdN⟩

/-- C9: along every run of driver operations the lifecycle never regresses.
Per step (given the single-in-flight invariant): `OPEN` is entered only from
`NONE` (create), `INIT_SEQ` only from `OPEN`, and `PIC_RUN` only from
`INIT_SEQ` (frame-buffer registration) or `STOP` (drain completion); the
invariant is preserved by every step; and along any run that starts in
`PIC_RUN` or `STOP` and ends in `OPEN` or `INIT_SEQ`, some intermediate
state is `NONE`. -/
theorem enc_state_machine_no_regression :
    (∀ s s', EncStep s s' → EncInv s →
      ((s'.inst.state = VpuInstState.OPEN →
          s.inst.state ≠ VpuInstState.OPEN →
          s.inst.state = VpuInstState.NONE) ∧
       (s'.inst.state = VpuInstState.INIT_SEQ →
          s.inst.state ≠ VpuInstState.INIT_SEQ →
          s.inst.state = VpuInstState.OPEN) ∧
       (s'.inst.state = VpuInstState.PIC_RUN →
          s.inst.state ≠ VpuInstState.PIC_RUN →
          s.inst.state = VpuInstState.INIT_SEQ ∨
            s.inst.state = VpuInstState.STOP))) ∧
    (∀ s s', EncStep s s' → EncInv s → EncInv s') ∧
    (∀ (s0 : EncDriver) (l : List EncDriver) (sn : EncDriver),
      EncRun (s0 :: l) → EncInv s0 →
      (s0.inst.state = VpuInstState.PIC_RUN ∨
        s0.inst.state = VpuInstState.STOP) →
      (s0 :: l).getLast? = some sn →
      (sn.inst.state = VpuInstState.OPEN ∨
        sn.inst.state = VpuInstState.INIT_SEQ) →
      ∃ d ∈ s0 :: l, d.inst.state = VpuInstState.NONE) :=
  ⟨enc_step_entry, enc_inv_preserved,
   fun s0 l sn hrun hInv hs0 hn hsn =>
     enc_run_no_regression_aux l s0 hrun hInv hs0 sn hn hsn⟩

/-- The concrete three-state run for the witness: a running instance whose
queues stop (destroying it), followed by a fresh create. -/
def drv₀ : EncDriver := ⟨inst₀, none⟩

def drv₁ : EncDriver :=
  ⟨wave6_vpu_enc_stop_streaming drv₀.inst true true false, none⟩

def drv₂ : EncDriver :=
  ⟨(wave6_vpu_enc_create_instance drv₁.inst 0 0 0).2, none⟩

/-- Closed instantiation of `enc_state_machine_no_regression`: the concrete
run `PIC_RUN → NONE → OPEN` passes through `NONE`. -/
theorem enc_state_machine_no_regression_witness :
    ∃ d ∈ [drv₀, drv₁, drv₂], d.inst.state = VpuInstState.NONE := by
  have hstep₁ : EncStep drv₀ drv₁ :=
    EncStep.stop_q drv₀ true true false rfl
  have hstep₂ : EncStep drv₁ drv₂ :=
    EncStep.create drv₁ 0 0 0 (by decide)
  exact enc_state_machine_no_regression.2.2 drv₀ [drv₁, drv₂] drv₂
    ⟨hstep₁, hstep₂, trivial⟩
    (fun hfl => by cases hfl)
    (Or.inl (by decide))
    (by rfl)
    (Or.inl (by decide))

end Wave6
